import Mathlib

/-!
Verification of the Pivotal Tracker source connector core
(`source_pivotal_tracker/source.py`): pagination, record extraction,
project slicing, the incremental cursor tracker, and project discovery.

The Python code is shallowly embedded: HTTP response headers become
association lists of strings, JSON values become an inductive `Json`
type, records become association lists from string keys to `Json`
values, and code that can raise becomes `Except String`-valued.
-/

/-- A JSON value, as delivered in response bodies. -/
inductive Json where
  | null : Json
  | bool : Bool → Json
  | num : Int → Json
  | str : String → Json
  | arr : List Json → Json
  | obj : List (String × Json) → Json

/-- A record: a JSON object's key/value pairs in insertion order
(Python dicts preserve insertion order). -/
abbrev Record : Type := List (String × Json)

/-- `d[k]` / `k in d` for a record: the first value stored under `k`,
if any. -/
def Record.lookup (r : Record) (k : String) : Option Json :=
  (List.find? (fun p => p.1 == k) r).map (fun p => p.2)

/-- `d[k] = v` on a Python dict: overwrite in place if the key exists,
else append, preserving insertion order. -/
def Record.setKey (r : Record) (k : String) (v : Json) : Record :=
  if List.any r (fun p => p.1 == k) then
    List.map (fun p => if p.1 == k then (k, v) else p) r
  else r ++ [(k, v)]

/-- Response headers: an association list of header names to values. -/
abbrev Headers : Type := List (String × String)

/-- Header lookup (`headers[k]` returns the value, `k in headers` its
presence). -/
def Headers.lookup (hs : Headers) (k : String) : Option String :=
  (List.find? (fun p => p.1 == k) hs).map (fun p => p.2)

/-- The numeric value of a decimal digit character, if it is one. -/
def charDigit? (c : Char) : Option Nat :=
  if '0' ≤ c ∧ c ≤ '9' then some (c.toNat - '0'.toNat) else none

/-- Accumulate a decimal numeral left to right; fails on any
non-digit. -/
def parseDigitsAux (acc : Nat) : List Char → Option Nat
  | [] => some acc
  | c :: cs =>
    match charDigit? c with
    | none => none
    | some d => parseDigitsAux (10 * acc + d) cs

/-- Python `int(str)` on a decimal numeral with an optional sign
(surrounding whitespace is not modelled); `none` models the raised
`ValueError`. -/
def pyInt (s : String) : Option Int :=
  match s.data with
  | [] => none
  | '-' :: cs =>
    match cs with
    | [] => none
    | _ => (parseDigitsAux 0 cs).map (fun n => -(n : Int))
  | '+' :: cs =>
    match cs with
    | [] => none
    | _ => (parseDigitsAux 0 cs).map (fun n => (n : Int))
  | cs => (parseDigitsAux 0 cs).map (fun n => (n : Int))

/-- `int(headers[k])`: the header's value parsed as an integer; `none`
models the raised `KeyError`/`ValueError`. -/
def Headers.int (hs : Headers) (k : String) : Option Int :=
  (Headers.lookup hs k).bind pyInt

/-- The pagination token `{"offset": n}`. -/
structure PageToken where
  offset : Int
deriving DecidableEq

/-- `PivotalTrackerStream.next_page_token`: reads
`X-Tracker-Pagination-Total` for presence, then the `Limit`,
`Returned` and `Offset` headers as integers (each unguarded read may
raise, modelled by `.error`), returning `none` when the endpoint is
not paginating or the last page was fetched, else the next offset. -/
def PivotalTrackerStream.next_page_token (hs : Headers) :
    Except String (Option PageToken) :=
  if Headers.lookup hs "X-Tracker-Pagination-Total" = none then
    Except.ok none
  else
    match Headers.int hs "X-Tracker-Pagination-Limit" with
    | none => Except.error "cannot read X-Tracker-Pagination-Limit as int"
    | some page_size =>
      match Headers.int hs "X-Tracker-Pagination-Returned" with
      | none => Except.error "cannot read X-Tracker-Pagination-Returned as int"
      | some records_returned =>
        match Headers.int hs "X-Tracker-Pagination-Offset" with
        | none => Except.error "cannot read X-Tracker-Pagination-Offset as int"
        | some current_offset =>
          if records_returned < page_size then
            Except.ok none
          else
            Except.ok (some { offset := current_offset + page_size })

/-- `PivotalTrackerStream.parse_response`: the body is a top-level
JSON array; every element is yielded, in array order, unchanged. -/
def PivotalTrackerStream.parse_response (body : List Record) : List Record :=
  body

/-- A stream slice `{"project_id": p}` produced by
`ProjectBasedStream.stream_slices`. -/
def ProjectBasedStream.stream_slices (project_ids : List String) :
    List (List (String × String)) :=
  List.map (fun project_id => [("project_id", project_id)]) project_ids

/-- C7: `stream_slices` yields exactly one slice `{project_id: p}` per
input id, in input order; the empty input yields zero slices. -/
theorem stream_slices_spec (project_ids : List String) :
    (ProjectBasedStream.stream_slices project_ids).length = project_ids.length
    ∧ (∀ k : Nat, (ProjectBasedStream.stream_slices project_ids)[k]? =
        (project_ids[k]?).map (fun p => [("project_id", p)]))
    ∧ ProjectBasedStream.stream_slices [] = [] := by
  refine ⟨List.length_map _ _, fun k => ?_, rfl⟩
  simp [ProjectBasedStream.stream_slices]

/-- C2: with the `Limit`, `Returned` and `Offset` headers readable as
integers `L`, `R`, `O`: a response lacking the `Total` header yields
`none` regardless of other headers; with the `Total` header present,
`R < L` yields `none` and `R = L` yields the token `{offset: O + L}`. -/
theorem next_page_token_pagination_spec :
    (∀ hs : Headers, Headers.lookup hs "X-Tracker-Pagination-Total" = none →
      PivotalTrackerStream.next_page_token hs = Except.ok none)
    ∧ (∀ (hs : Headers) (L R O : Int),
        Headers.int hs "X-Tracker-Pagination-Limit" = some L →
        Headers.int hs "X-Tracker-Pagination-Returned" = some R →
        Headers.int hs "X-Tracker-Pagination-Offset" = some O →
        Headers.lookup hs "X-Tracker-Pagination-Total" ≠ none →
        (R < L → PivotalTrackerStream.next_page_token hs = Except.ok none)
        ∧ (R = L → PivotalTrackerStream.next_page_token hs =
            Except.ok (some { offset := O + L }))) := by
  constructor
  · intro hs habs
    simp [PivotalTrackerStream.next_page_token, habs]
  · intro hs L R O hL hR hO htot
    constructor
    · intro hlt
      simp [PivotalTrackerStream.next_page_token, htot, hL, hR, hO, hlt]
    · intro heq
      subst heq
      simp [PivotalTrackerStream.next_page_token, htot, hL, hR, hO]

/-- Witness for C2 at concrete headers: total present, limit 5,
returned 5, offset 10 gives the token with offset 15. -/
theorem next_page_token_pagination_spec_witness :
    PivotalTrackerStream.next_page_token
      [("X-Tracker-Pagination-Total", "20"),
       ("X-Tracker-Pagination-Limit", "5"),
       ("X-Tracker-Pagination-Returned", "5"),
       ("X-Tracker-Pagination-Offset", "10")] =
      Except.ok (some { offset := 15 }) :=
  (next_page_token_pagination_spec.2 _ 5 5 10
    (by decide) (by decide) (by decide) (by decide)).2 rfl

/-- C9: when the `Total` header is present, `next_page_token` succeeds
exactly when all of the `Limit`, `Returned` and `Offset` headers are
present with integer values; any missing or non-integer one of the
three makes the unguarded reads fail. -/
theorem next_page_token_unguarded_spec (hs : Headers)
    (htot : Headers.lookup hs "X-Tracker-Pagination-Total" ≠ none) :
    (PivotalTrackerStream.next_page_token hs).isOk = true ↔
      ((Headers.int hs "X-Tracker-Pagination-Limit").isSome = true
       ∧ (Headers.int hs "X-Tracker-Pagination-Returned").isSome = true
       ∧ (Headers.int hs "X-Tracker-Pagination-Offset").isSome = true) := by
  unfold PivotalTrackerStream.next_page_token
  simp only [htot, if_neg]
  cases hL : Headers.int hs "X-Tracker-Pagination-Limit" with
  | none => simp [hL, Except.isOk, Except.toBool]
  | some L =>
    cases hR : Headers.int hs "X-Tracker-Pagination-Returned" with
    | none => simp [hL, hR, Except.isOk, Except.toBool]
    | some R =>
      cases hO : Headers.int hs "X-Tracker-Pagination-Offset" with
      | none => simp [hL, hR, hO, Except.isOk, Except.toBool]
      | some O =>
        by_cases hlt : R < L <;>
          simp [hL, hR, hO, hlt, Except.isOk, Except.toBool]

/-- Witness for C9: a response carrying only the `Total` header makes
`next_page_token` fail, matching the right-hand side being false. -/
theorem next_page_token_unguarded_spec_witness :
    (PivotalTrackerStream.next_page_token
      [("X-Tracker-Pagination-Total", "20")]).isOk = true ↔
      ((Headers.int [("X-Tracker-Pagination-Total", "20")]
          "X-Tracker-Pagination-Limit").isSome = true
       ∧ (Headers.int [("X-Tracker-Pagination-Total", "20")]
          "X-Tracker-Pagination-Returned").isSome = true
       ∧ (Headers.int [("X-Tracker-Pagination-Total", "20")]
          "X-Tracker-Pagination-Offset").isSome = true) :=
  next_page_token_unguarded_spec _ (by decide)

/-- The tracker's watermark `_cursor_value`; initialised to `""` by
`IncrementalPivotalStream.__init__`. -/
def IncrementalPivotalStream.initial_cursor_value : String := ""

/-- The epoch default used by the `state` setter. -/
def IncrementalPivotalStream.epoch : String := "1970-01-01T00:00:00"

/-- The `state` property getter:
`{self.cursor_field: self._cursor_value} if self._cursor_value else {}`
(the empty string is falsy). -/
def IncrementalPivotalStream.state_get (cursor_field : String)
    (cursor_value : String) : List (String × String) :=
  if cursor_value = "" then [] else [(cursor_field, cursor_value)]

/-- The `state` property setter:
`self._cursor_value = value.get(self.cursor_field, "1970-01-01T00:00:00")`. -/
def IncrementalPivotalStream.state_set (cursor_field : String)
    (value : List (String × String)) : String :=
  ((List.find? (fun p => p.1 == cursor_field) value).map (fun p => p.2)).getD
    IncrementalPivotalStream.epoch

/-- `record[self.cursor_field]` as a string (Python compares the
cursor values with `max`, which the API feeds ISO-8601 strings);
`none` models the raised `KeyError` (or a non-string value). -/
def recordCursor (cursor_field : String) (r : Record) : Option String :=
  match Record.lookup r cursor_field with
  | some (Json.str s) => some s
  | _ => none

/-- The cursor values of a record sequence, in order; `none` when some
record lacks the cursor field. -/
def cursorsOf (cursor_field : String) : List Record → Option (List String)
  | [] => some []
  | r :: rs =>
    match recordCursor cursor_field r with
    | none => none
    | some s => (cursorsOf cursor_field rs).map (fun vs => s :: vs)

/-- `IncrementalPivotalStream.read_records`, watermark component: each
record is yielded and then
`self._cursor_value = max(record[self.cursor_field], self._cursor_value)`;
the result is the watermark after the pass, `.error` modelling a
record without the cursor field. -/
def IncrementalPivotalStream.read_pass (cursor_field : String)
    (cursor_value : String) : List Record → Except String String
  | [] => Except.ok cursor_value
  | r :: rs =>
    match recordCursor cursor_field r with
    | none => Except.error "KeyError: cursor field"
    | some s => IncrementalPivotalStream.read_pass cursor_field
        (max s cursor_value) rs

/-- The successive watermark values taken during a read pass (one per
record processed). -/
def IncrementalPivotalStream.read_pass_trace (cursor_field : String)
    (cursor_value : String) : List Record → List String
  | [] => []
  | r :: rs =>
    match recordCursor cursor_field r with
    | none => []
    | some s => max s cursor_value ::
        IncrementalPivotalStream.read_pass_trace cursor_field
          (max s cursor_value) rs

/-- C4 counterexample: seeding the state with an empty-string cursor
value and reading it straight back yields `{}`, not
`{cursor_field: ""}` — the getter tests Python truthiness, so the
claimed round-trip fails at `v = ""`. -/
theorem state_roundtrip_empty_counterexample :
    IncrementalPivotalStream.state_get "updated_at"
      (IncrementalPivotalStream.state_set "updated_at" [("updated_at", "")]) = []
    ∧ ([] : List (String × String)) ≠ [("updated_at", "")] := by
  constructor
  · rfl
  · intro h
    exact List.noConfusion h

/-- C4 as amended: `state_get` returns `{}` on the initial (never
recorded) watermark and on any empty-string watermark, and
`{cursor_field: cv}` on any non-empty watermark `cv`; seeding
`{cursor_field: v}` and reading back returns `{cursor_field: v}` for
every non-empty `v`; and seeding from a mapping lacking the cursor
field resets the watermark to the epoch default. -/
theorem state_get_set_spec (cursor_field v : String)
    (m : List (String × String)) :
    IncrementalPivotalStream.state_get cursor_field
      IncrementalPivotalStream.initial_cursor_value = []
    ∧ (∀ cv : String, cv ≠ "" →
        IncrementalPivotalStream.state_get cursor_field cv = [(cursor_field, cv)])
    ∧ (v ≠ "" →
        IncrementalPivotalStream.state_get cursor_field
          (IncrementalPivotalStream.state_set cursor_field [(cursor_field, v)]) =
          [(cursor_field, v)])
    ∧ (List.find? (fun p => p.1 == cursor_field) m = none →
        IncrementalPivotalStream.state_set cursor_field m =
          IncrementalPivotalStream.epoch) := by
  refine ⟨rfl, ?_, ?_, ?_⟩
  · intro cv hcv
    simp [IncrementalPivotalStream.state_get, hcv]
  · intro hv
    have hset : IncrementalPivotalStream.state_set cursor_field
        [(cursor_field, v)] = v := by
      simp [IncrementalPivotalStream.state_set, List.find?]
    rw [hset]
    simp [IncrementalPivotalStream.state_get, hv]
  · intro hm
    simp [IncrementalPivotalStream.state_set, hm]

/-- Witness for C4 at a concrete timestamp: the round-trip holds for
the non-empty value `2022-01-01T00:00:00`, and a mapping without the
cursor field resets to the epoch. -/
theorem state_get_set_spec_witness :
    IncrementalPivotalStream.state_get "updated_at"
      (IncrementalPivotalStream.state_set "updated_at"
        [("updated_at", "2022-01-01T00:00:00")]) =
      [("updated_at", "2022-01-01T00:00:00")]
    ∧ IncrementalPivotalStream.state_set "updated_at" [] =
        IncrementalPivotalStream.epoch :=
  ⟨(state_get_set_spec "updated_at" "2022-01-01T00:00:00" []).2.2.1
      (by decide),
   (state_get_set_spec "updated_at" "2022-01-01T00:00:00" []).2.2.2 rfl⟩

/-- A query-parameter value: an integer offset, a string timestamp, or
Python's `None` (as produced by `dict.get` on a missing key). -/
inductive PVal where
  | null : PVal
  | int : Int → PVal
  | str : String → PVal
deriving DecidableEq

/-- Parameter-dict lookup. -/
def Params.lookup (l : List (String × PVal)) (k : String) : Option PVal :=
  (List.find? (fun p => p.1 == k) l).map (fun p => p.2)

/-- `params[k] = v` on the parameter dict: overwrite in place if the
key exists, else append. -/
def Params.setKey (l : List (String × PVal)) (k : String) (v : PVal) :
    List (String × PVal) :=
  if List.any l (fun p => p.1 == k) then
    List.map (fun p => if p.1 == k then (k, v) else p) l
  else l ++ [(k, v)]

/-- `stream_state.get(self.cursor_field)`: the watermark string when
present, else Python `None`. -/
def pvOfOpt : Option String → PVal
  | some v => PVal.str v
  | none => PVal.null

/-- `PivotalTrackerStream.request_params`: `{}` plus the offset from a
truthy `next_page_token`. -/
def PivotalTrackerStream.request_params (next_page_token : Option PageToken) :
    List (String × PVal) :=
  match next_page_token with
  | some t => [("offset", PVal.int t.offset)]
  | none => []

/-- `IncrementalPivotalStream.request_params`: the base params with
`params[self.cursor_filter] = stream_state.get(self.cursor_field)`. -/
def IncrementalPivotalStream.request_params (cursor_filter cursor_field : String)
    (stream_state : List (String × String))
    (next_page_token : Option PageToken) : List (String × PVal) :=
  Params.setKey (PivotalTrackerStream.request_params next_page_token)
    cursor_filter
    (pvOfOpt ((List.find? (fun p => p.1 == cursor_field) stream_state).map
      (fun p => p.2)))

/-- Setting a key in the parameter dict makes it present with exactly
that value. -/
theorem Params.lookup_set_self (l : List (String × PVal)) (k : String)
    (v : PVal) : Params.lookup (Params.setKey l k v) k = some v := by
  unfold Params.setKey
  by_cases hany : List.any l (fun p => p.1 == k) = true
  · simp only [hany, if_pos]
    induction l with
    | nil => simp at hany
    | cons p l ih =>
      by_cases hp : (p.1 == k) = true
      · simp [Params.lookup, List.find?, hp]
      · have hany' : List.any l (fun q => q.1 == k) = true := by
          simpa [List.any, hp] using hany
        simpa [Params.lookup, List.find?, hp] using ih hany'
  · simp only [hany, if_neg, Bool.not_eq_true]
    induction l with
    | nil => simp [Params.lookup, List.find?]
    | cons p l ih =>
      have hp : (p.1 == k) = false := by
        by_contra hc
        simp only [Bool.not_eq_false] at hc
        simp [List.any, hc] at hany
      have hany' : ¬ List.any l (fun q => q.1 == k) = true := by
        intro hc
        simp [List.any, hc] at hany
      simpa [Params.lookup, List.find?, hp] using ih hany'

/-- C5 counterexample: with no state ever recorded the getter yields
the empty state, and the incremental stream's request sets the cursor
filter `updated_after` to Python `None` — not to the epoch default
claimed by the spec. -/
theorem request_params_no_state_counterexample :
    Params.lookup
      (IncrementalPivotalStream.request_params "updated_after" "updated_at"
        (IncrementalPivotalStream.state_get "updated_at"
          IncrementalPivotalStream.initial_cursor_value) none)
      "updated_after" = some PVal.null
    ∧ PVal.null ≠ PVal.str IncrementalPivotalStream.epoch := by
  exact ⟨rfl, fun h => PVal.noConfusion h⟩

/-- C5 as amended: every outbound request of an incremental stream
carries the cursor filter parameter, set to the cursor-field entry of
the `stream_state` passed for the pass (the watermark snapshot) when
present, and to Python `None` when the state lacks it — in particular
when no state was ever recorded, the parameter is `None`, not the
epoch default; the value does not depend on the page token, so all
pages of one multi-page pull over the same `stream_state` use the
same lower bound. -/
theorem request_params_cursor_filter_spec (cursor_filter cursor_field : String)
    (stream_state : List (String × String))
    (next_page_token : Option PageToken) :
    Params.lookup
      (IncrementalPivotalStream.request_params cursor_filter cursor_field
        stream_state next_page_token) cursor_filter =
      some (pvOfOpt ((List.find? (fun p => p.1 == cursor_field)
        stream_state).map (fun p => p.2)))
    ∧ ∀ tok' : Option PageToken,
        Params.lookup
          (IncrementalPivotalStream.request_params cursor_filter cursor_field
            stream_state tok') cursor_filter =
        Params.lookup
          (IncrementalPivotalStream.request_params cursor_filter cursor_field
            stream_state next_page_token) cursor_filter := by
  constructor
  · exact Params.lookup_set_self _ _ _
  · intro tok'
    unfold IncrementalPivotalStream.request_params
    rw [Params.lookup_set_self, Params.lookup_set_self]

/-- The Activity transform of one record:
`if "project" in record: record["project_id"] = record["project"]["id"]`;
`.error` models the raised `TypeError`/`KeyError` when the `project`
value is not a mapping carrying an `id`. -/
def Activity.lift_project (record : Record) : Except String Record :=
  match Record.lookup record "project" with
  | none => Except.ok record
  | some proj =>
    match proj with
    | Json.obj fields =>
      match Record.lookup fields "id" with
      | some v => Except.ok (Record.setKey record "project_id" v)
      | none => Except.error "KeyError: id"
    | _ => Except.error "TypeError: project value is not a mapping"

/-- `Activity.parse_response`: each record of the body array, in array
order, passed through `Activity.lift_project`. -/
def Activity.parse_response : List Record → Except String (List Record)
  | [] => Except.ok []
  | r :: rs =>
    match Activity.lift_project r with
    | Except.error e => Except.error e
    | Except.ok r2 => (Activity.parse_response rs).map (fun out => r2 :: out)

/-- Setting a key in a record makes it present with exactly that
value. -/
theorem Record.lookup_setKey_self (r : Record) (k : String) (v : Json) :
    Record.lookup (Record.setKey r k v) k = some v := by
  unfold Record.setKey
  by_cases hany : List.any r (fun p => p.1 == k) = true
  · simp only [hany, if_pos]
    induction r with
    | nil => simp at hany
    | cons p r ih =>
      by_cases hp : (p.1 == k) = true
      · simp [Record.lookup, List.find?, hp]
      · have hany' : List.any r (fun q => q.1 == k) = true := by
          simpa [List.any, hp] using hany
        simpa [Record.lookup, List.find?, hp] using ih hany'
  · simp only [hany, if_neg, Bool.not_eq_true]
    induction r with
    | nil => simp [Record.lookup, List.find?]
    | cons p r ih =>
      have hp : (p.1 == k) = false := by
        by_contra hc
        simp only [Bool.not_eq_false] at hc
        simp [List.any, hc] at hany
      have hany' : ¬ List.any r (fun q => q.1 == k) = true := by
        intro hc
        simp [List.any, hc] at hany
      simpa [Record.lookup, List.find?, hp] using ih hany'

/-- Setting a key in a record leaves every other key's value
unchanged. -/
theorem Record.lookup_setKey_ne (r : Record) (k k' : String) (v : Json)
    (hne : k' ≠ k) :
    Record.lookup (Record.setKey r k v) k' = Record.lookup r k' := by
  have hkk : (k == k') = false := beq_eq_false_iff_ne.mpr (Ne.symm hne)
  unfold Record.setKey
  by_cases hany : List.any r (fun p => p.1 == k) = true
  · simp only [hany, if_pos]
    clear hany
    induction r with
    | nil => rfl
    | cons p r ih =>
      by_cases hp : (p.1 == k) = true
      · have hpk : p.1 = k := eq_of_beq hp
        have hp' : (p.1 == k') = false := by rw [hpk]; exact hkk
        simpa [Record.lookup, List.find?, hp, hp', hkk] using ih
      · simp only [Bool.not_eq_true] at hp
        by_cases hq : (p.1 == k') = true
        · simp [Record.lookup, List.find?, hp, hq]
        · simp only [Bool.not_eq_true] at hq
          simpa [Record.lookup, List.find?, hp, hq] using ih
  · simp only [hany, if_neg, Bool.not_eq_true]
    clear hany
    induction r with
    | nil => simp [Record.lookup, List.find?, hkk]
    | cons p r ih =>
      by_cases hq : (p.1 == k') = true
      · simp [Record.lookup, List.find?, hq]
      · simp only [Bool.not_eq_true] at hq
        simpa [Record.lookup, List.find?, hq] using ih

/-- C6: a record whose `project` value is a mapping carrying `id = v`
is yielded as the input record with the top-level `project_id` field
set to `v` (all other keys unchanged); a record without a `project`
key passes through unmodified; and parsing yields the transformed
records in array order (each parsed record is prepended to the parse
of the rest). -/
theorem activity_parse_response_spec (r : Record) (fields : Record)
    (v : Json) (rest : List Record) :
    (Record.lookup r "project" = some (Json.obj fields) →
      Record.lookup fields "id" = some v →
      Activity.lift_project r = Except.ok (Record.setKey r "project_id" v)
      ∧ Record.lookup (Record.setKey r "project_id" v) "project_id" = some v
      ∧ ∀ k : String, k ≠ "project_id" →
          Record.lookup (Record.setKey r "project_id" v) k = Record.lookup r k)
    ∧ (Record.lookup r "project" = none →
        Activity.lift_project r = Except.ok r)
    ∧ (∀ r2 : Record, Activity.lift_project r = Except.ok r2 →
        Activity.parse_response (r :: rest) =
          (Activity.parse_response rest).map (fun out => r2 :: out)) := by
  refine ⟨fun hp hid => ⟨?_, Record.lookup_setKey_self r "project_id" v,
      fun k hk => Record.lookup_setKey_ne r "project_id" k v hk⟩,
    fun hp => ?_, fun r2 h2 => ?_⟩
  · simp [Activity.lift_project, hp, hid]
  · simp [Activity.lift_project, hp]
  · simp [Activity.parse_response, h2]

/-- Witness for C6: the record `{id: 5, project: {id: 42}}` yields
`{id: 5, project: {id: 42}, project_id: 42}`. -/
theorem activity_parse_response_spec_witness :
    Activity.lift_project
      [("id", Json.num 5), ("project", Json.obj [("id", Json.num 42)])] =
      Except.ok (Record.setKey
        [("id", Json.num 5), ("project", Json.obj [("id", Json.num 42)])]
        "project_id" (Json.num 42))
    ∧ Record.setKey
        [("id", Json.num 5), ("project", Json.obj [("id", Json.num 42)])]
        "project_id" (Json.num 42) =
      [("id", Json.num 5), ("project", Json.obj [("id", Json.num 42)]),
       ("project_id", Json.num 42)] :=
  ⟨((activity_parse_response_spec
      [("id", Json.num 5), ("project", Json.obj [("id", Json.num 42)])]
      [("id", Json.num 42)] (Json.num 42) []).1 rfl rfl).1,
   rfl⟩

/-- C10: `Activity.parse_response` is partial at its interface: a
record whose `project` value is a mapping lacking `id`, or is not a
mapping at all, makes parsing fail; and it succeeds on every body
whose records carry an `id` inside each `project` sub-object. -/
theorem activity_parse_partiality_spec :
    (Activity.parse_response [[("project", Json.obj [])]]).isOk = false
    ∧ (Activity.parse_response [[("project", Json.num 7)]]).isOk = false
    ∧ ∀ rs : List Record,
        (∀ r ∈ rs, ∀ p : Json, Record.lookup r "project" = some p →
          ∃ (fields : Record) (v : Json),
            p = Json.obj fields ∧ Record.lookup fields "id" = some v) →
        (Activity.parse_response rs).isOk = true := by
  refine ⟨rfl, rfl, fun rs h => ?_⟩
  induction rs with
  | nil => rfl
  | cons r rest ih =>
    have hok : ∃ r2, Activity.lift_project r = Except.ok r2 := by
      cases hp : Record.lookup r "project" with
      | none => exact ⟨r, by simp [Activity.lift_project, hp]⟩
      | some p =>
        obtain ⟨fields, v, rfl, hid⟩ := h r (by simp) p hp
        exact ⟨Record.setKey r "project_id" v,
          by simp [Activity.lift_project, hp, hid]⟩
    obtain ⟨r2, h2⟩ := hok
    have hrest : (Activity.parse_response rest).isOk = true :=
      ih (fun r' hr' => h r' (List.mem_cons_of_mem r hr'))
    cases hout : Activity.parse_response rest with
    | error e => simp [hout, Except.isOk, Except.toBool] at hrest
    | ok out =>
      simp [Activity.parse_response, h2, hout, Except.map, Except.isOk,
        Except.toBool]

/-- Witness for C10: parsing succeeds on a body whose single record's
`project` sub-object carries an `id`. -/
theorem activity_parse_partiality_spec_witness :
    (Activity.parse_response
      [[("project", Json.obj [("id", Json.num 1)])]]).isOk = true := by
  refine activity_parse_partiality_spec.2.2 _ ?_
  intro r hr p hp
  rw [List.mem_singleton] at hr
  subst hr
  refine ⟨[("id", Json.num 1)], Json.num 1, ?_, rfl⟩
  have : some (Json.obj [("id", Json.num 1)]) = some p := hp
  exact (Option.some.inj this).symm

/-- The empty string is least in the lexicographic order on strings
(the order Python uses to compare the ISO-8601 cursor values). -/
theorem empty_string_le (s : String) : "" ≤ s := by
  refine le_of_not_lt (fun h => ?_)
  rw [String.lt_iff_toList_lt] at h
  exact List.Lex.not_nil_right _ _ h

/-- A read pass over records whose cursor values are `vals` ends at a
watermark that is an upper bound of the initial watermark and of all
of `vals`, and is one of them. -/
theorem read_pass_ok (cf : String) :
    ∀ (rs : List Record) (vals : List String) (st : String),
    cursorsOf cf rs = some vals →
    ∃ w, IncrementalPivotalStream.read_pass cf st rs = Except.ok w
      ∧ st ≤ w ∧ (∀ v ∈ vals, v ≤ w) ∧ (w = st ∨ w ∈ vals) := by
  intro rs
  induction rs with
  | nil =>
    intro vals st h
    obtain rfl : vals = [] := by simpa [cursorsOf] using h.symm
    exact ⟨st, rfl, le_refl st, by simp, Or.inl rfl⟩
  | cons r rs ih =>
    intro vals st h
    cases hc : recordCursor cf r with
    | none => simp [cursorsOf, hc] at h
    | some s =>
      rw [cursorsOf, hc] at h
      cases hcs : cursorsOf cf rs with
      | none => rw [hcs] at h; simp at h
      | some vs =>
        rw [hcs] at h
        obtain rfl : vals = s :: vs := by simpa using h.symm
        obtain ⟨w, hw, hle, hub, hmem⟩ := ih vs (max s st) hcs
        refine ⟨w, ?_, le_trans (le_max_right s st) hle, ?_, ?_⟩
        · simpa [IncrementalPivotalStream.read_pass, hc] using hw
        · intro v hv
          rcases List.mem_cons.mp hv with rfl | hv
          · exact le_trans (le_max_left v st) hle
          · exact hub v hv
        · rcases hmem with rfl | hmem
          · rcases max_choice s st with hm | hm
            · exact Or.inr (by simp [hm])
            · exact Or.inl hm
          · exact Or.inr (List.mem_cons_of_mem s hmem)

/-- The outcome of a read pass does not depend on the order in which
the records arrive. -/
theorem read_pass_perm (cf : String) {rs rs' : List Record}
    (p : rs.Perm rs') : ∀ st : String,
    IncrementalPivotalStream.read_pass cf st rs =
      IncrementalPivotalStream.read_pass cf st rs' := by
  induction p with
  | nil => intro st; rfl
  | cons r _ ih =>
    intro st
    cases hc : recordCursor cf r with
    | none => simp [IncrementalPivotalStream.read_pass, hc]
    | some s => simp [IncrementalPivotalStream.read_pass, hc, ih]
  | swap a b l =>
    intro st
    cases ha : recordCursor cf a with
    | none =>
      cases hb : recordCursor cf b with
      | none => simp [IncrementalPivotalStream.read_pass, ha, hb]
      | some sb => simp [IncrementalPivotalStream.read_pass, ha, hb]
    | some sa =>
      cases hb : recordCursor cf b with
      | none => simp [IncrementalPivotalStream.read_pass, ha, hb]
      | some sb =>
        simp [IncrementalPivotalStream.read_pass, ha, hb, max_left_comm]
  | trans _ _ ih1 ih2 => intro st; exact (ih1 st).trans (ih2 st)

/-- The successive watermark values of a read pass never decrease. -/
theorem read_pass_trace_chain (cf : String) :
    ∀ (rs : List Record) (st : String),
    List.Chain' (fun a b => a ≤ b)
      (st :: IncrementalPivotalStream.read_pass_trace cf st rs) := by
  intro rs
  induction rs with
  | nil => intro st; simp [IncrementalPivotalStream.read_pass_trace]
  | cons r rs ih =>
    intro st
    cases hc : recordCursor cf r with
    | none => simp [IncrementalPivotalStream.read_pass_trace, hc]
    | some s =>
      simp only [IncrementalPivotalStream.read_pass_trace, hc]
      exact List.chain'_cons.mpr ⟨le_max_right s st, ih (max s st)⟩

/-- C1: a read pass over records carrying cursor values `vals` ends
with the watermark equal to the lexicographic maximum of the initial
watermark and all observed cursor values (an upper bound that is one
of them), independently of the order in which the records arrive; the
successive watermark values never decrease; and reading cursor values
`[t2, t1, t3]` with `t1 < t2 < t3` on a fresh tracker leaves
`get_state()` returning `{cursor_field: t3}`. -/
theorem read_pass_watermark_spec (cf st : String) (rs : List Record)
    (vals : List String) (h : cursorsOf cf rs = some vals) :
    ∃ w, IncrementalPivotalStream.read_pass cf st rs = Except.ok w
      ∧ st ≤ w
      ∧ (∀ v ∈ vals, v ≤ w)
      ∧ (w = st ∨ w ∈ vals)
      ∧ (∀ rs' : List Record, rs.Perm rs' →
          IncrementalPivotalStream.read_pass cf st rs' = Except.ok w)
      ∧ List.Chain' (fun a b => a ≤ b)
          (st :: IncrementalPivotalStream.read_pass_trace cf st rs)
      ∧ ∀ t1 t2 t3 : String, t1 < t2 → t2 < t3 →
          IncrementalPivotalStream.read_pass cf ""
            [[(cf, Json.str t2)], [(cf, Json.str t1)], [(cf, Json.str t3)]] =
            Except.ok t3
          ∧ IncrementalPivotalStream.state_get cf t3 = [(cf, t3)] := by
  obtain ⟨w, hw, hst, hub, hmem⟩ := read_pass_ok cf rs vals st h
  refine ⟨w, hw, hst, hub, hmem,
    fun rs' p => ((read_pass_perm cf p st).symm).trans hw,
    read_pass_trace_chain cf rs st, ?_⟩
  intro t1 t2 t3 h12 h23
  have hc : ∀ t : String, recordCursor cf [(cf, Json.str t)] = some t := by
    intro t
    simp [recordCursor, Record.lookup, List.find?]
  have e1 : max t2 "" = t2 := max_eq_left (empty_string_le t2)
  have e2 : max t1 t2 = t2 := max_eq_right (le_of_lt h12)
  have e3 : max t3 t2 = t3 := max_eq_left (le_of_lt h23)
  constructor
  · simp [IncrementalPivotalStream.read_pass, hc, e1, e2, e3]
  · have hne : t3 ≠ "" := by
      have h0 : ("" : String) < t3 :=
        lt_of_le_of_lt (empty_string_le t1) (h12.trans h23)
      exact fun he => absurd h0 (by rw [he]; exact lt_irrefl "")
    simp [IncrementalPivotalStream.state_get, hne]

/-- Witness for C1 at concrete records with cursor values `b`, `a`. -/
theorem read_pass_watermark_spec_witness :
    ∃ w, IncrementalPivotalStream.read_pass "updated_at" ""
        [[("updated_at", Json.str "b")], [("updated_at", Json.str "a")]] =
        Except.ok w
      ∧ "" ≤ w
      ∧ (∀ v ∈ ["b", "a"], v ≤ w)
      ∧ (w = "" ∨ w ∈ ["b", "a"])
      ∧ (∀ rs' : List Record,
          List.Perm [[("updated_at", Json.str "b")],
            [("updated_at", Json.str "a")]] rs' →
          IncrementalPivotalStream.read_pass "updated_at" "" rs' =
            Except.ok w)
      ∧ List.Chain' (fun a b => a ≤ b)
          ("" :: IncrementalPivotalStream.read_pass_trace "updated_at" ""
            [[("updated_at", Json.str "b")], [("updated_at", Json.str "a")]])
      ∧ ∀ t1 t2 t3 : String, t1 < t2 → t2 < t3 →
          IncrementalPivotalStream.read_pass "updated_at" ""
            [[("updated_at", Json.str t2)], [("updated_at", Json.str t1)],
             [("updated_at", Json.str t3)]] = Except.ok t3
          ∧ IncrementalPivotalStream.state_get "updated_at" t3 =
              [("updated_at", t3)] :=
  read_pass_watermark_spec "updated_at" ""
    [[("updated_at", Json.str "b")], [("updated_at", Json.str "a")]]
    ["b", "a"] (by decide)

/-- The outcome of probing one project's detail endpoint
(`Project.read_records`): the records returned, or a raised
exception. -/
inductive ProbeOutcome where
  | ok : List Record → ProbeOutcome
  | exn : String → ProbeOutcome

/-- `SourcePivotalTracker._check_project_availability`: tries
`next(project.read_records(...))`; any exception — including
`StopIteration` when no record is returned — is caught and logged and
yields `false`, else `true`. The second component is the log lines
emitted. -/
def SourcePivotalTracker._check_project_availability
    (probe : Json → ProbeOutcome) (project_id : Json) : Bool × List String :=
  match probe project_id with
  | ProbeOutcome.ok [] => (false, ["Unable to fetch project info: StopIteration"])
  | ProbeOutcome.ok (_ :: _) => (true, [])
  | ProbeOutcome.exn e => (false, ["Unable to fetch project info: " ++ e])

/-- `SourcePivotalTracker._generate_project_ids`: walks the project
listing, reads each record's `id` (an unguarded read whose `KeyError`
is modelled by `.error`), probes it, and appends it to the result
exactly when the availability check passes, preserving listing order
and accumulating the log lines of failed probes. -/
def SourcePivotalTracker._generate_project_ids
    (probe : Json → ProbeOutcome) : List Record →
    Except String (List Json × List String)
  | [] => Except.ok ([], [])
  | r :: rs =>
    match Record.lookup r "id" with
    | none => Except.error "KeyError: id"
    | some project_id =>
      match SourcePivotalTracker._generate_project_ids probe rs with
      | Except.error e => Except.error e
      | Except.ok (ids, logs) =>
        let c := SourcePivotalTracker._check_project_availability probe
          project_id
        Except.ok (if c.1 then project_id :: ids else ids, c.2 ++ logs)

/-- The `id` values of the listing's records, in order; `none` when
some record lacks an `id`. -/
def idsOf : List Record → Option (List Json)
  | [] => some []
  | r :: rs =>
    match Record.lookup r "id" with
    | none => none
    | some i => (idsOf rs).map (fun l => i :: l)

/-- A concrete probe for which project `2` raises and every other
project returns one record. -/
def probeEx : Json → ProbeOutcome
  | Json.num 2 => ProbeOutcome.exn "403 Forbidden"
  | pid => ProbeOutcome.ok [[("id", pid)]]

/-- `SourcePivotalTracker.check_connection`: runs discovery and
returns `(True, None)`; an exception raised during discovery
propagates. -/
def SourcePivotalTracker.check_connection (probe : Json → ProbeOutcome)
    (listing : List Record) : Except String (Bool × Option String) :=
  match SourcePivotalTracker._generate_project_ids probe listing with
  | Except.error e => Except.error e
  | Except.ok _ => Except.ok (true, none)

/-- C3: discovery over a listing with ids `ids` returns exactly the
ids whose probe passes the availability check, in listing order, with
the log lines of the failed probes and no propagated error; a probe
passes exactly when it raises nothing and returns at least one
record; and on listing `[1, 2, 3]` with project `2` raising, the
result is `[1, 3]` with the cause logged. -/
theorem generate_project_ids_spec (probe : Json → ProbeOutcome)
    (rs : List Record) (ids : List Json) (h : idsOf rs = some ids) :
    (∃ logs : List String,
      SourcePivotalTracker._generate_project_ids probe rs =
        Except.ok (ids.filter (fun i =>
          (SourcePivotalTracker._check_project_availability probe i).1), logs))
    ∧ (∀ i : Json,
        (SourcePivotalTracker._check_project_availability probe i).1 = true ↔
          ∃ (r0 : Record) (rs0 : List Record),
            probe i = ProbeOutcome.ok (r0 :: rs0))
    ∧ SourcePivotalTracker._generate_project_ids probeEx
        [[("id", Json.num 1)], [("id", Json.num 2)], [("id", Json.num 3)]] =
        Except.ok ([Json.num 1, Json.num 3],
          ["Unable to fetch project info: 403 Forbidden"]) := by
  refine ⟨?_, fun i => ?_, rfl⟩
  · induction rs generalizing ids with
    | nil =>
      obtain rfl : ids = [] := by simpa [idsOf] using h.symm
      exact ⟨[], rfl⟩
    | cons r rs ih =>
      cases hi : Record.lookup r "id" with
      | none => simp [idsOf, hi] at h
      | some i =>
        rw [idsOf, hi] at h
        cases his : idsOf rs with
        | none => rw [his] at h; simp at h
        | some ids' =>
          rw [his] at h
          obtain rfl : ids = i :: ids' := by simpa using h.symm
          obtain ⟨logs', hgen⟩ := ih ids' his
          refine ⟨(SourcePivotalTracker._check_project_availability probe i).2
            ++ logs', ?_⟩
          simp only [SourcePivotalTracker._generate_project_ids, hi, hgen,
            List.filter_cons]
  · cases hp : probe i with
    | ok l =>
      cases l with
      | nil => simp [SourcePivotalTracker._check_project_availability, hp]
      | cons r0 rs0 =>
        simp [SourcePivotalTracker._check_project_availability, hp]
    | exn e => simp [SourcePivotalTracker._check_project_availability, hp]

/-- Witness for C3 at the concrete listing `[{id: 1}, {id: 2}]` and
the probe that fails on project `2`. -/
theorem generate_project_ids_spec_witness :
    (∃ logs : List String,
      SourcePivotalTracker._generate_project_ids probeEx
        [[("id", Json.num 1)], [("id", Json.num 2)]] =
        Except.ok ([Json.num 1, Json.num 2].filter (fun i =>
          (SourcePivotalTracker._check_project_availability probeEx i).1),
          logs))
    ∧ (∀ i : Json,
        (SourcePivotalTracker._check_project_availability probeEx i).1 = true ↔
          ∃ (r0 : Record) (rs0 : List Record),
            probeEx i = ProbeOutcome.ok (r0 :: rs0))
    ∧ SourcePivotalTracker._generate_project_ids probeEx
        [[("id", Json.num 1)], [("id", Json.num 2)], [("id", Json.num 3)]] =
        Except.ok ([Json.num 1, Json.num 3],
          ["Unable to fetch project info: 403 Forbidden"]) :=
  generate_project_ids_spec probeEx
    [[("id", Json.num 1)], [("id", Json.num 2)]]
    [Json.num 1, Json.num 2] rfl

/-- C8: `check_connection` returns `(True, None)` whenever discovery
runs to completion — however many ids, including none, it found — and
propagates any exception discovery raises. -/
theorem check_connection_spec (probe : Json → ProbeOutcome)
    (listing : List Record) :
    (∀ res : List Json × List String,
      SourcePivotalTracker._generate_project_ids probe listing =
        Except.ok res →
      SourcePivotalTracker.check_connection probe listing =
        Except.ok (true, none))
    ∧ (∀ e : String,
      SourcePivotalTracker._generate_project_ids probe listing =
        Except.error e →
      SourcePivotalTracker.check_connection probe listing =
        Except.error e) := by
  constructor
  · intro res hres
    simp [SourcePivotalTracker.check_connection, hres]
  · intro e he
    simp [SourcePivotalTracker.check_connection, he]

/-- Witness for C8: the empty listing completes discovery with zero
accessible projects and a successful connection check. -/
theorem check_connection_spec_witness :
    SourcePivotalTracker.check_connection probeEx [] =
      Except.ok (true, none) :=
  (check_connection_spec probeEx []).1 ([], []) rfl
